import Mathlib

/-!
Verification of the shared request/response normalization layer of
node-red-contrib-machine-vision.

The embedding below translates the utility module (vision-utils) and the
constants module of the repository into Lean: JavaScript values that the
code inspects (numbers including NaN, optional object properties, strings)
are modelled explicitly, and every function is a direct transcription of
the corresponding JavaScript function, preserving the order of its checks
and the exact message strings it produces.
-/

namespace MachineVision

/-! ## JavaScript value primitives

JavaScript numbers are modelled as either NaN or a rational value
(`JNum`).  The comparison operators mirror IEEE semantics as used by the
source: every ordering comparison involving NaN is false.  Infinities do
not occur in any of the inputs the claims quantify over and are omitted.
A JavaScript string is truthy iff it is non-empty; a number is truthy iff
it is neither 0 nor NaN. -/

inductive JNum where
  | nan : JNum
  | fin : ℚ → JNum
deriving DecidableEq

/-- JavaScript strict less-than: false whenever either side is NaN. -/
def jlt : JNum → JNum → Bool
  | JNum.fin a, JNum.fin b => a < b
  | _, _ => false

/-- JavaScript less-or-equal: false whenever either side is NaN. -/
def jle : JNum → JNum → Bool
  | JNum.fin a, JNum.fin b => a ≤ b
  | _, _ => false

/-- Truthiness of a JavaScript number: 0 and NaN are falsy. -/
def jnumTruthy : JNum → Bool
  | JNum.nan => false
  | JNum.fin q => q ≠ 0

/-- Rendering of a number into a message string (display model; the claims
never depend on the exact digits of a non-integral value). -/
def jnumToString : JNum → String
  | JNum.nan => "NaN"
  | JNum.fin q => if q.den = 1 then toString q.num else toString q.num ++ "/" ++ toString q.den

/-- Translation of the JavaScript idiom `s || d` for an optional string
field: an absent or empty (falsy) string falls back to the default. -/
def jsOrString (s : Option String) (d : String) : String :=
  match s with
  | none => d
  | some v => if v = "" then d else v

/-- Translation of `n || d` for an optional numeric field holding a
natural number: an absent or zero (falsy) value falls back to the default. -/
def jsOrNat (n : Option Nat) (d : Nat) : Nat :=
  match n with
  | none => d
  | some v => if v = 0 then d else v

/-! ## Input validators (vision-utils: validateROI, validateImageId)

`validateROI(roi, options)` receives an arbitrary JavaScript value as
`roi`; `ROIArg.nonObject` covers every value rejected by the guard
`!roi || typeof roi !== 'object'`.  A property of the roi object is
either absent (`none`) or holds a value, which is a number or some
non-number value (`JVal.other`, covering strings, null, booleans, nested
objects). -/

inductive JVal where
  | num : JNum → JVal
  | other : JVal
deriving DecidableEq

structure ROIInput where
  x : Option JVal
  y : Option JVal
  width : Option JVal
  height : Option JVal
deriving DecidableEq

inductive ROIArg where
  | nonObject : ROIArg
  | obj : ROIInput → ROIArg
deriving DecidableEq

structure ROIOptions where
  maxWidth : Option JNum := none
  maxHeight : Option JNum := none
deriving DecidableEq

structure ValidationResult where
  valid : Bool
  error : Option String := none
deriving DecidableEq

/-- Message of the maxWidth check of validateROI:
`ROI width exceeds maximum (${options.maxWidth})`. -/
def roiWidthExceedsMsg (m : JNum) : String :=
  "ROI width exceeds maximum (" ++ jnumToString m ++ ")"

/-- Message of the maxHeight check of validateROI:
`ROI height exceeds maximum (${options.maxHeight})`. -/
def roiHeightExceedsMsg (m : JNum) : String :=
  "ROI height exceeds maximum (" ++ jnumToString m ++ ")"

/-- Final two checks of validateROI: `options.maxWidth && width > options.maxWidth`
and then the analogous maxHeight check.  The truthiness guard on the
option means a limit of 0 or NaN disables the check. -/
def validateROIMax (options : ROIOptions) (w h : JNum) : ValidationResult :=
  match options.maxWidth with
  | some m =>
    if jnumTruthy m && jlt m w then { valid := false, error := some (roiWidthExceedsMsg m) }
    else
      match options.maxHeight with
      | some mh =>
        if jnumTruthy mh && jlt mh h then { valid := false, error := some (roiHeightExceedsMsg mh) }
        else { valid := true }
      | none => { valid := true }
  | none =>
    match options.maxHeight with
    | some mh =>
      if jnumTruthy mh && jlt mh h then { valid := false, error := some (roiHeightExceedsMsg mh) }
      else { valid := true }
    | none => { valid := true }

/-- Transcription of `validateROI(roi, options = {})` from the utility
module: reject non-objects, then missing properties, then non-numeric
properties, then negative x/y, then non-positive width/height, then a
truthy maxWidth/maxHeight that is exceeded; otherwise valid. -/
def validateROI (roi : ROIArg) (options : ROIOptions := {}) : ValidationResult :=
  match roi with
  | ROIArg.nonObject => { valid := false, error := some "ROI must be an object" }
  | ROIArg.obj r =>
    match r.x, r.y, r.width, r.height with
    | some xv, some yv, some wv, some hv =>
      match xv, yv, wv, hv with
      | JVal.num x, JVal.num y, JVal.num w, JVal.num h =>
        if jlt x (JNum.fin 0) || jlt y (JNum.fin 0) then
          { valid := false, error := some "ROI x and y must be non-negative" }
        else if jle w (JNum.fin 0) || jle h (JNum.fin 0) then
          { valid := false, error := some "ROI width and height must be positive" }
        else validateROIMax options w h
      | _, _, _, _ =>
        { valid := false, error := some "ROI coordinates must be numbers" }
    | _, _, _, _ =>
      { valid := false, error := some "ROI must have x, y, width, and height properties" }

/-- Substring test on character lists, the semantics of JavaScript
`String.prototype.includes`: some suffix of `l` has `sub` as a prefix. -/
def containsSeq (l sub : List Char) : Bool :=
  match l with
  | [] => sub.isEmpty
  | _ :: t => sub.isPrefixOf l || containsSeq t sub

/-- Character class of the regex `[a-zA-Z0-9_-]` used by validateImageId. -/
def isIdChar (c : Char) : Bool :=
  (97 ≤ c.toNat && c.toNat ≤ 122) || (65 ≤ c.toNat && c.toNat ≤ 90) ||
    (48 ≤ c.toNat && c.toNat ≤ 57) || c = '_' || c = '-'

/-- Semantics of `/^[a-zA-Z0-9_-]+$/.test(s)`: non-empty and every
character in the class. -/
def idRegexTest (s : String) : Bool :=
  !s.data.isEmpty && s.data.all isIdChar

inductive ImageIdArg where
  | nonString : ImageIdArg
  | str : String → ImageIdArg
deriving DecidableEq

structure IdValidationResult where
  valid : Bool
  error : Option String := none
  sanitized : Option String := none
deriving DecidableEq

/-- Transcription of `validateImageId(imageId)`: reject falsy or
non-string input, then any occurrence of `..`, `/` or `\` (path-traversal
defense), then a failed character-class test, then a length outside
[1,255]; otherwise valid with the input returned as the sanitized value.
String length is measured in characters; it agrees with the JavaScript
length on every string that reaches the length check, since those are
ASCII-only. -/
def validateImageId (imageId : ImageIdArg) : IdValidationResult :=
  match imageId with
  | ImageIdArg.nonString =>
    { valid := false, error := some "Image ID must be a non-empty string" }
  | ImageIdArg.str s =>
    if s = "" then
      { valid := false, error := some "Image ID must be a non-empty string" }
    else if containsSeq s.data ['.', '.'] || containsSeq s.data ['/'] ||
        containsSeq s.data ['\\'] then
      { valid := false,
        error := some "Image ID contains invalid characters (path traversal attempt)" }
    else if !idRegexTest s then
      { valid := false,
        error := some "Image ID must contain only alphanumeric characters, hyphens, and underscores" }
    else if s.data.length < 1 || s.data.length > 255 then
      { valid := false, error := some "Image ID must be between 1 and 255 characters" }
    else { valid := true, sanitized := some s }

/-! ## Rate limiter (vision-utils: checkRateLimit)

The process-wide `rateLimiters` map holds, per key, a record
`{ count, resetAt }`.  Since keys are fully independent, the state for one
key is modelled as an `Option RateLimitEntry` (none when the map does not
contain the key); times are in milliseconds. -/

structure RateLimitEntry where
  count : Nat
  resetAt : Nat
deriving DecidableEq

/-- Transcription of `checkRateLimit(key, maxRequests, windowMs)` acting
on the state stored for the key: returns the boolean result together with
the state left in the map for that key. -/
def checkRateLimit (now : Nat) (st : Option RateLimitEntry) (maxRequests windowMs : Nat) :
    Bool × RateLimitEntry :=
  match st with
  | none => (true, { count := 1, resetAt := now + windowMs })
  | some limiter =>
    if limiter.resetAt ≤ now then (true, { count := 1, resetAt := now + windowMs })
    else if maxRequests ≤ limiter.count then (false, limiter)
    else (true, { count := limiter.count + 1, resetAt := limiter.resetAt })

/-- Repeated calls of checkRateLimit for one key, one call per listed
timestamp, threading the stored state; returns the results in order. -/
def runRateLimit (maxRequests windowMs : Nat) :
    List Nat → Option RateLimitEntry → List Bool
  | [], _ => []
  | t :: ts, st =>
    let r := checkRateLimit t st maxRequests windowMs
    r.1 :: runRateLimit maxRequests windowMs ts (some r.2)

/-! ## Status reporter (vision-utils: setNodeStatus)

`node.status(...)` receives a record with fill, shape and text; the pure
part of setNodeStatus computes that record. -/

structure NodeStatus where
  fill : Option String := none
  shape : Option String := none
  text : Option String := none
deriving DecidableEq

/-- Display of a processing time in a status text (`${processingTime}ms`). -/
def msText (q : ℚ) : String :=
  (if q.den = 1 then toString q.num else toString q.num ++ "/" ++ toString q.den) ++ "ms"

/-- Transcription of the switch of `setNodeStatus(node, statusType,
message = null, processingTime = null)`; returns the status record passed
to `node.status`. -/
def statusFor (statusType : String) (message : Option String := none)
    (processingTime : Option ℚ := none) : NodeStatus :=
  if statusType = "ready" then
    { fill := some "grey", shape := some "ring", text := some "ready" }
  else if statusType = "processing" then
    { fill := some "blue", shape := some "dot",
      text := some (jsOrString message "processing...") }
  else if statusType = "error" then
    { fill := some "red", shape := some "dot", text := some (jsOrString message "error") }
  else if statusType = "success" then
    { fill := some "green", shape := some "dot",
      text := some (match processingTime with
        | some t => match message with
          | some m => if m = "" then msText t else m ++ " | " ++ msText t
          | none => msText t
        | none => jsOrString message "success") }
  else if statusType = "no_results" then
    { fill := some "yellow", shape := some "ring",
      text := some (match processingTime with
        | some t => match message with
          | some m => if m = "" then "no results | " ++ msText t else m ++ " | " ++ msText t
          | none => "no results | " ++ msText t
        | none => jsOrString message "no results") }
  else if statusType = "clear" then {}
  else { fill := some "grey", shape := some "ring", text := some (jsOrString message "unknown") }

/-! ## Response normalizer (vision-utils: createVisionObjectMessage)

A property of a raw backend detection object is absent, null, or holds a
value (`JField`); the conditional-copy contract of the normalizer
distinguishes all three. -/

inductive JField (α : Type) where
  | missing : JField α
  | jnull : JField α
  | val : α → JField α
deriving DecidableEq

/-- Translation of the conditional assignment
`if (v !== undefined && v !== null) payload.k = v`: the key is present in
the payload exactly when the source field holds a value. -/
def jfieldOpt {α : Type} : JField α → Option α
  | JField.val a => some a
  | _ => none

structure BoundingBox where
  x : ℚ
  y : ℚ
  width : ℚ
  height : ℚ
deriving DecidableEq

structure Point where
  x : ℚ
  y : ℚ
deriving DecidableEq

/-- Algorithm-specific properties mapping; only the marker_id entry is
ever read by the nodes under verification, so the mapping is modelled by
that entry.  The empty mapping `{}` of the source is the record with no
marker_id. -/
structure Properties where
  marker_id : Option String := none
deriving DecidableEq

structure RawVisionObject where
  object_id : Option String := none
  object_type : Option String := none
  bounding_box : Option BoundingBox := none
  center : Option Point := none
  confidence : Option ℚ := none
  properties : JField Properties := JField.missing
  area : JField ℚ := JField.missing
  perimeter : JField ℚ := JField.missing
  rotation : JField ℚ := JField.missing
  contour : JField (List Point) := JField.missing
deriving DecidableEq

structure VisionPayload where
  object_id : Option String := none
  object_type : Option String := none
  image_id : String
  timestamp : String
  bounding_box : Option BoundingBox := none
  center : Option Point := none
  confidence : Option ℚ := none
  thumbnail : Option String := none
  properties : Properties := {}
  area : Option ℚ := none
  perimeter : Option ℚ := none
  rotation : Option ℚ := none
  contour : Option (List Point) := none
deriving DecidableEq

/-- Reference object attached by the ArUco node to every outbound
message (first marker's data). -/
structure ReferenceObject where
  rotation : JField ℚ
  center : Option Point
  marker_id : Option String
  object_type : Option String
deriving DecidableEq

/-- Outbound message: the original message is cloned and its payload
replaced; fields of the clone that the nodes never touch are orthogonal
to every claim and are not modelled.  Root-level metadata added by the
vision nodes is carried alongside the payload. -/
structure OutMessage where
  payload : VisionPayload
  reference_object : Option ReferenceObject := none
  success : Option Bool := none
  processing_time_ms : Option ℚ := none
  node_name : Option String := none
deriving DecidableEq

/-- Transcription of `createVisionObjectMessage(obj, imageId, timestamp,
thumbnail, msg, RED)`: builds the standardized VisionObject payload,
copying the unconditional fields directly, defaulting properties to the
empty mapping (`obj.properties || {}`), and adding each of area,
perimeter, rotation and contour only when present and non-null. -/
def createVisionObjectMessage (obj : RawVisionObject) (imageId timestamp : String)
    (thumbnail : Option String) : OutMessage :=
  { payload :=
    { object_id := obj.object_id
      object_type := obj.object_type
      image_id := imageId
      timestamp := timestamp
      bounding_box := obj.bounding_box
      center := obj.center
      confidence := obj.confidence
      thumbnail := thumbnail
      properties := match obj.properties with
        | JField.val p => p
        | _ => {}
      area := jfieldOpt obj.area
      perimeter := jfieldOpt obj.perimeter
      rotation := jfieldOpt obj.rotation
      contour := jfieldOpt obj.contour } }

/-! ## Multi-detection node success paths (mv-aruco-detect, mv-template-match)

The success path of each node receives the parsed backend response and
produces the list of outbound messages (in emission order), the final
status update, and the argument passed to the completion callback
(`none` models the bare `done()` of the no-results and success paths). -/

structure VisionApiResult where
  objects : Option (List RawVisionObject) := none
  thumbnail_base64 : Option String := none
  processing_time_ms : Option ℚ := none
deriving DecidableEq

structure ProcessOutcome where
  messages : List OutMessage
  status : NodeStatus
  doneError : Option String
deriving DecidableEq

/-- Reference object built from a marker by the ArUco node:
`{rotation: obj.rotation, center: obj.center, marker_id:
obj.properties.marker_id, object_type: obj.object_type}`.  The marker-id
is the plain member access `….properties.marker_id` on the FIRST marker
(at index 0 the current marker is the first one); `pr` is that marker's
properties mapping.  When the first marker has no properties mapping the
access throws a TypeError — that path is handled in arucoProcessResult,
so this builder is only ever invoked with the mapping at hand. -/
def refObjOf (obj : RawVisionObject) (pr : Properties) : ReferenceObject :=
  { rotation := obj.rotation
    center := obj.center
    marker_id := pr.marker_id
    object_type := obj.object_type }

/-- Loop body of the ArUco node: for index i, clone-and-fill the message
and set reference_object from the current marker when i = 0, else from
`result.objects[0]`; `firstProps` is the first marker's properties
mapping, the only one the loop ever dereferences. -/
def arucoMessagesAux (first : RawVisionObject) (firstProps : Properties)
    (imageId timestamp : String) (thumbnail : Option String) (ptime : Option ℚ)
    (nodeName : Option String) :
    Nat → List RawVisionObject → List OutMessage
  | _, [] => []
  | i, obj :: rest =>
    let base := createVisionObjectMessage obj imageId timestamp thumbnail
    { base with
      reference_object :=
        some (if i = 0 then refObjOf obj firstProps else refObjOf first firstProps)
      success := some true
      processing_time_ms := ptime
      node_name := some (jsOrString nodeName "ArUco Detection") } ::
      arucoMessagesAux first firstProps imageId timestamp thumbnail ptime nodeName (i + 1) rest

/-- Status text of the ArUco success path:
`${n} marker${n > 1 ? 's' : ''}`. -/
def arucoCountMsg (n : Nat) : String :=
  toString n ++ " marker" ++ (if 1 < n then "s" else "")

/-- Transcription of the ArUco node's handling of a successful backend
response: zero or absent objects emit nothing and set the no-results
status; otherwise one message is emitted per entry of the objects array,
in array order, and the success status carries the marker count — unless
the first marker carries no properties mapping: the plain access
`obj.properties.marker_id` in the reference-object construction (and
`firstMarker.properties.marker_id` for later indices) then throws a
TypeError at index 0, before the first send, so the node's catch invokes
the completion callback with that error after zero emissions, leaving the
"processing" status set by the dispatcher in place. -/
def arucoProcessResult (result : VisionApiResult) (imageId timestamp : String)
    (nodeName : Option String) : ProcessOutcome :=
  match result.objects with
  | none =>
    { messages := []
      status := statusFor "no_results" (some "no markers") result.processing_time_ms
      doneError := none }
  | some [] =>
    { messages := []
      status := statusFor "no_results" (some "no markers") result.processing_time_ms
      doneError := none }
  | some (first :: rest) =>
    match first.properties with
    | JField.val pr =>
      { messages := arucoMessagesAux first pr imageId timestamp result.thumbnail_base64
          result.processing_time_ms nodeName 0 (first :: rest)
        status := statusFor "success" (some (arucoCountMsg (first :: rest).length))
          result.processing_time_ms
        doneError := none }
    | JField.missing =>
      { messages := []
        status := statusFor "processing"
        doneError :=
          some "TypeError: Cannot read properties of undefined (reading 'marker_id')" }
    | JField.jnull =>
      { messages := []
        status := statusFor "processing"
        doneError :=
          some "TypeError: Cannot read properties of null (reading 'marker_id')" }

/-- Loop body of the template-match node (no reference object). -/
def templateMessages (imageId timestamp : String) (thumbnail : Option String)
    (ptime : Option ℚ) (nodeName : Option String) :
    List RawVisionObject → List OutMessage
  | [] => []
  | obj :: rest =>
    let base := createVisionObjectMessage obj imageId timestamp thumbnail
    { base with
      success := some true
      processing_time_ms := ptime
      node_name := some (jsOrString nodeName "Template Match") } ::
      templateMessages imageId timestamp thumbnail ptime nodeName rest

/-- Status text of the template-match success path:
`${n} match${n > 1 ? 'es' : ''}`. -/
def templateCountMsg (n : Nat) : String :=
  toString n ++ " match" ++ (if 1 < n then "es" else "")

/-- Transcription of the template-match node's handling of a successful
backend response. -/
def templateProcessResult (result : VisionApiResult) (imageId timestamp : String)
    (nodeName : Option String) : ProcessOutcome :=
  match result.objects with
  | none =>
    { messages := []
      status := statusFor "no_results" (some "not found") result.processing_time_ms
      doneError := none }
  | some [] =>
    { messages := []
      status := statusFor "no_results" (some "not found") result.processing_time_ms
      doneError := none }
  | some (first :: rest) =>
    { messages := templateMessages imageId timestamp result.thumbnail_base64
        result.processing_time_ms nodeName (first :: rest)
      status := statusFor "success" (some (templateCountMsg (first :: rest).length))
        result.processing_time_ms
      doneError := none }

/-! ## Configuration resolver (vision-utils: getApiSettings)

Credential fields are text inputs of the config node; an unset credential
is the empty string, and the source guards them with JavaScript
truthiness (`if (apiConfig.credentials.apiKey)`), so a configured
credential is a present, non-empty string. -/

structure Credentials where
  apiKey : Option String := none
  apiToken : Option String := none
deriving DecidableEq

structure ApiConfig where
  apiUrl : Option String := none
  timeout : Option Nat := none
  credentials : Option Credentials := none
deriving DecidableEq

structure ApiSettings where
  apiUrl : String
  timeout : Nat
  headers : List (String × String)
deriving DecidableEq

/-- Default base URL (constants: API.DEFAULT_URL). -/
def API_DEFAULT_URL : String := "http://localhost:8000"

/-- Default request timeout in milliseconds (constants: API.DEFAULT_TIMEOUT). -/
def API_DEFAULT_TIMEOUT : Nat := 30000

/-- Headers added for configured credentials, in source order: X-API-Key
when apiKey is truthy, then Authorization with a bearer token when
apiToken is truthy. -/
def credentialHeaders : Option Credentials → List (String × String)
  | none => []
  | some c =>
    (match c.apiKey with
      | some k => if k = "" then [] else [("X-API-Key", k)]
      | none => []) ++
    (match c.apiToken with
      | some t => if t = "" then [] else [("Authorization", "Bearer " ++ t)]
      | none => [])

/-- Settings produced by getApiSettings for a present config node:
defaulted URL and timeout, JSON content type, credential headers. -/
def resolveSettings (cfg : ApiConfig) : ApiSettings :=
  { apiUrl := jsOrString cfg.apiUrl API_DEFAULT_URL
    timeout := jsOrNat cfg.timeout API_DEFAULT_TIMEOUT
    headers := ("Content-Type", "application/json") :: credentialHeaders cfg.credentials }

/-- Transcription of `getApiSettings(apiConfig)`: throws on an absent
config node, otherwise returns the resolved settings. -/
def getApiSettings : Option ApiConfig → Except String ApiSettings
  | none => Except.error "Missing API configuration. Please configure mv-config node."
  | some cfg => Except.ok (resolveSettings cfg)

/-! ## Error classification (vision-utils: callVisionAPI catch block,
extractErrorMessage, getStatusMessage)

An axios failure is modelled by the three fields the source inspects:
the optional HTTP response (with status code, optional `detail` of the
response body, and reason phrase), whether the underlying request object
is attached, and the error code.  A transport-level timeout in axios is
raised after the request has been dispatched, so the error carries the
request object: response = none, request = true, code = ECONNABORTED. -/

structure HttpResponse where
  status : Nat
  detail : Option String := none
  statusText : String := ""
deriving DecidableEq

structure AxiosError where
  response : Option HttpResponse := none
  request : Bool := false
  code : Option String := none
  message : String := ""
deriving DecidableEq

structure ErrorClassification where
  errorMessage : String
  statusMessage : String
deriving DecidableEq

/-- Detail text of an HTTP error response:
`error.response.data?.detail || error.response.statusText` (an absent,
null or empty detail falls back to the reason phrase). -/
def responseDetail (r : HttpResponse) : String :=
  match r.detail with
  | some d => if d = "" then r.statusText else d
  | none => r.statusText

/-- Transcription of the error classification of callVisionAPI's catch
block, checked in source order: HTTP response by status code, then
request-without-response, then ECONNABORTED, then the generic fallback. -/
def classifyVisionError (e : AxiosError) (url : String) (timeout : Nat) :
    ErrorClassification :=
  match e.response with
  | some r =>
    let detail := responseDetail r
    if r.status = 404 then
      { errorMessage := "Not found: " ++ detail, statusMessage := "not found" }
    else if r.status = 400 then
      { errorMessage := "Invalid request: " ++ detail, statusMessage := "invalid request" }
    else if r.status = 401 ∨ r.status = 403 then
      { errorMessage := "Authentication error: " ++ detail, statusMessage := "auth error" }
    else if 500 ≤ r.status then
      { errorMessage := "Server error: " ++ detail, statusMessage := "server error" }
    else
      { errorMessage := "API error (" ++ toString r.status ++ "): " ++ detail
        statusMessage := "error " ++ toString r.status }
  | none =>
    if e.request then
      { errorMessage := "Network error: Cannot reach API at " ++ url
        statusMessage := "network error" }
    else if e.code = some "ECONNABORTED" then
      { errorMessage := "Timeout: Request took longer than " ++ toString timeout ++ "ms"
        statusMessage := "timeout" }
    else
      { errorMessage := "Error: " ++ e.message, statusMessage := "error" }

/-- Transcription of `extractErrorMessage(error, url, timeout)` (used by
callCameraAPI and callImageAPI); same branch order as the catch block of
callVisionAPI. -/
def extractErrorMessage (e : AxiosError) (url : String) (timeout : Nat) : String :=
  match e.response with
  | some r =>
    let detail := responseDetail r
    if r.status = 404 then "Not found: " ++ detail
    else if r.status = 400 then "Invalid request: " ++ detail
    else if r.status = 401 ∨ r.status = 403 then "Authentication error: " ++ detail
    else if 500 ≤ r.status then "Server error: " ++ detail
    else "API error (" ++ toString r.status ++ "): " ++ detail
  | none =>
    if e.request then "Network error: Cannot reach API at " ++ url
    else if e.code = some "ECONNABORTED" then
      "Timeout: Request took longer than " ++ toString timeout ++ "ms"
    else "Error: " ++ e.message

/-- Transcription of `getStatusMessage(error)`. -/
def getStatusMessage (e : AxiosError) : String :=
  match e.response with
  | some r =>
    if r.status = 404 then "not found"
    else if r.status = 400 then "invalid request"
    else if r.status = 401 ∨ r.status = 403 then "auth error"
    else if 500 ≤ r.status then "server error"
    else "error " ++ toString r.status
  | none =>
    if e.request then "network error"
    else if e.code = some "ECONNABORTED" then "timeout"
    else "error"

/-! ## Request dispatcher (vision-utils: callVisionAPI)

The dispatcher is modelled as a function of the transport: the transport
maps the target URL, timeout and headers either to parsed response data
or to an axios error.  The outcome records the returned or raised value,
the status updates in order, the error messages forwarded to the node's
error sink, and whether the HTTP call was attempted at all. -/

structure DispatchOutcome (α : Type) where
  result : Except String α
  statuses : List NodeStatus
  loggedErrors : List String
  httpAttempted : Bool

/-- Transcription of `callVisionAPI(options)`: resolve the settings (on
failure report the "no config" status, log, and propagate without any
network attempt), set the processing status, issue the call, and on
failure classify the error, report its status label and log its message
before propagating. -/
def callVisionAPI {α : Type} (apiConfig : Option ApiConfig) (endpoint : String)
    (transport : String → Nat → List (String × String) → Except AxiosError α) :
    DispatchOutcome α :=
  match getApiSettings apiConfig with
  | Except.error msg =>
    { result := Except.error msg
      statuses := [statusFor "error" (some "no config")]
      loggedErrors := [msg]
      httpAttempted := false }
  | Except.ok s =>
    let url := s.apiUrl ++ endpoint
    match transport url s.timeout s.headers with
    | Except.ok data =>
      { result := Except.ok data
        statuses := [statusFor "processing"]
        loggedErrors := []
        httpAttempted := true }
    | Except.error e =>
      let c := classifyVisionError e url s.timeout
      { result := Except.error c.errorMessage
        statuses := [statusFor "processing", statusFor "error" (some c.statusMessage)]
        loggedErrors := [c.errorMessage]
        httpAttempted := true }

/-! ## Constants (constants module: EDGE_DETECT and LIMITS) -/

namespace EDGE_DETECT

def CANNY_LOW_THRESHOLD : Int := 50
def CANNY_HIGH_THRESHOLD : Int := 150
def SOBEL_THRESHOLD : Int := 50
def SOBEL_KSIZE : Int := 3
def LAPLACIAN_THRESHOLD : Int := 50
def LAPLACIAN_KSIZE : Int := 3
def PREWITT_THRESHOLD : Int := 50
def SCHARR_THRESHOLD : Int := 50
def BLUR_KERNEL_SIZE : Int := 0

end EDGE_DETECT

namespace LIMITS

def MAX_CONTOURS : Int := 20
def MAX_CONTOUR_AREA : Int := 100000
def MIN_CONTOUR_AREA : Int := 10

end LIMITS

/-! ## Parameter builder (vision-utils: buildEdgeDetectParams)

Numeric node-configuration values arrive from the editor as strings; an
absent field is `none` and `parseInt(undefined)` is NaN.  `jsParseInt`
implements `parseInt` with radix 10 inference on decimal inputs (leading
whitespace, optional sign, longest digit prefix; NaN — here `none` — when
no digit is found), which covers every value these fields can hold. -/

def digitsValue (ds : List Char) : Nat :=
  ds.foldl (fun a c => 10 * a + (c.toNat - 48)) 0

/-- Decimal `parseInt` on a string; `none` models a NaN result. -/
def jsParseInt (s : String) : Option Int :=
  let cs := s.data.dropWhile (fun c => c = ' ' || c = '\t' || c = '\n' || c = '\r')
  let core : List Char → Option Int := fun l =>
    let ds := l.takeWhile Char.isDigit
    if ds.isEmpty then none else some (Int.ofNat (digitsValue ds))
  match cs with
  | '-' :: rest => (core rest).map (fun n => -n)
  | '+' :: rest => core rest
  | rest => core rest

/-- Translation of `parseInt(v) || d`: an absent field, a failed parse
(NaN) and a parsed 0 (falsy) all fall back to the default. -/
def parseIntOr (v : Option String) (d : Int) : Int :=
  match v with
  | none => d
  | some s =>
    match jsParseInt s with
    | none => d
    | some n => if n = 0 then d else n

/-- Translation of `a || d` on a number already at hand (used for the
`defaults.BLUR_KERNEL_SIZE || 5` link of the fallback chain). -/
def intOr (a d : Int) : Int := if a = 0 then d else a

structure EdgeDetectConfig where
  method : Option String := none
  cannyLow : Option String := none
  cannyHigh : Option String := none
  sobelThreshold : Option String := none
  laplacianThreshold : Option String := none
  minContourArea : Option String := none
  maxContourArea : Option String := none
  maxContours : Option String := none
  blurEnabled : Option Bool := none
  blurKernel : Option String := none
  bilateralEnabled : Option Bool := none
  morphologyEnabled : Option Bool := none
  morphologyOperation : Option String := none
deriving DecidableEq

structure EdgeDetectParams where
  method : String
  canny_low : Int
  canny_high : Int
  sobel_threshold : Int
  sobel_kernel : Int
  laplacian_threshold : Int
  laplacian_kernel : Int
  prewitt_threshold : Int
  scharr_threshold : Int
  morph_threshold : Int
  morph_kernel : Int
  min_contour_area : Int
  max_contour_area : Int
  min_contour_perimeter : Int
  max_contour_perimeter : Int
  max_contours : Int
  show_centers : Bool
  blur_enabled : Bool
  blur_kernel : Int
  bilateral_enabled : Bool
  bilateral_d : Int
  bilateral_sigma_color : Int
  bilateral_sigma_space : Int
  morphology_enabled : Bool
  morphology_operation : String
  morphology_kernel : Int
  equalize_enabled : Bool
deriving DecidableEq

/-- Transcription of `buildEdgeDetectParams(config)`: every field is the
user override coerced with parseInt when truthy, else the constant from
the defaults table (or the hardcoded literal the source uses where no
constant exists).  The blur kernel chains two fallbacks:
`parseInt(config.blurKernel) || defaults.BLUR_KERNEL_SIZE || 5`. -/
def buildEdgeDetectParams (config : EdgeDetectConfig) : EdgeDetectParams :=
  { method := jsOrString config.method "canny"
    canny_low := parseIntOr config.cannyLow EDGE_DETECT.CANNY_LOW_THRESHOLD
    canny_high := parseIntOr config.cannyHigh EDGE_DETECT.CANNY_HIGH_THRESHOLD
    sobel_threshold := parseIntOr config.sobelThreshold EDGE_DETECT.SOBEL_THRESHOLD
    sobel_kernel := EDGE_DETECT.SOBEL_KSIZE
    laplacian_threshold := parseIntOr config.laplacianThreshold EDGE_DETECT.LAPLACIAN_THRESHOLD
    laplacian_kernel := EDGE_DETECT.LAPLACIAN_KSIZE
    prewitt_threshold := EDGE_DETECT.PREWITT_THRESHOLD
    scharr_threshold := EDGE_DETECT.SCHARR_THRESHOLD
    morph_threshold := 30
    morph_kernel := 3
    min_contour_area := parseIntOr config.minContourArea LIMITS.MIN_CONTOUR_AREA
    max_contour_area := parseIntOr config.maxContourArea LIMITS.MAX_CONTOUR_AREA
    min_contour_perimeter := 0
    max_contour_perimeter := 999999
    max_contours := parseIntOr config.maxContours LIMITS.MAX_CONTOURS
    show_centers := true
    blur_enabled := config.blurEnabled.getD false
    blur_kernel := parseIntOr config.blurKernel (intOr EDGE_DETECT.BLUR_KERNEL_SIZE 5)
    bilateral_enabled := config.bilateralEnabled.getD false
    bilateral_d := 9
    bilateral_sigma_color := 75
    bilateral_sigma_space := 75
    morphology_enabled := config.morphologyEnabled.getD false
    morphology_operation := jsOrString config.morphologyOperation "close"
    morphology_kernel := 3
    equalize_enabled := false }

/-! ## Statement-side definitions used by the theorems -/

/-- Pattern of claim C5, the regex `^[A-Za-z0-9_-]{1,255}$`: between 1 and
255 characters, all in the identifier class. -/
def idPattern255 (s : String) : Bool :=
  s.data.all isIdChar && 1 ≤ s.data.length && s.data.length ≤ 255

/-- ROI object whose four properties are present numbers. -/
def numROI (x y w h : JNum) : ROIInput :=
  { x := some (JVal.num x), y := some (JVal.num y)
    width := some (JVal.num w), height := some (JVal.num h) }

/-- Expected outbound message of the ArUco node for one detection: the
normalized VisionObject plus the root metadata, with the reference object
always taken from the first marker of the response (whose properties
mapping is `firstProps`). -/
def arucoOutMessage (obj first : RawVisionObject) (firstProps : Properties)
    (imageId timestamp : String) (thumbnail : Option String) (ptime : Option ℚ)
    (nodeName : Option String) : OutMessage :=
  { createVisionObjectMessage obj imageId timestamp thumbnail with
    reference_object := some (refObjOf first firstProps)
    success := some true
    processing_time_ms := ptime
    node_name := some (jsOrString nodeName "ArUco Detection") }

/-- Expected outbound message of the template-match node for one
detection. -/
def templateOutMessage (obj : RawVisionObject) (imageId timestamp : String)
    (thumbnail : Option String) (ptime : Option ℚ) (nodeName : Option String) : OutMessage :=
  { createVisionObjectMessage obj imageId timestamp thumbnail with
    success := some true
    processing_time_ms := ptime
    node_name := some (jsOrString nodeName "Template Match") }

/-! ## Theorems -/

/-- C4: checkRateLimit implements a fixed window per key.  The first call
for a key returns true and stores count 1 with reset deadline
now + windowMs; a call before the deadline increments the counter and
returns true while the counter is below maxRequests, returns false
without incrementing once the counter has reached maxRequests, and a
call at or past the deadline resets the entry to count 1 with a new
deadline and returns true.  Concretely, six immediate calls with
maxRequests 5 yield five true then false, and a seventh call after the
window has elapsed yields true. -/
theorem mv_C4_rate_limiter_fixed_window :
    (∀ now maxRequests windowMs : Nat,
      checkRateLimit now none maxRequests windowMs =
        (true, { count := 1, resetAt := now + windowMs })) ∧
    (∀ (now : Nat) (e : RateLimitEntry) (maxRequests windowMs : Nat),
      now < e.resetAt → e.count < maxRequests →
      checkRateLimit now (some e) maxRequests windowMs =
        (true, { count := e.count + 1, resetAt := e.resetAt })) ∧
    (∀ (now : Nat) (e : RateLimitEntry) (maxRequests windowMs : Nat),
      now < e.resetAt → maxRequests ≤ e.count →
      checkRateLimit now (some e) maxRequests windowMs = (false, e)) ∧
    (∀ (now : Nat) (e : RateLimitEntry) (maxRequests windowMs : Nat),
      e.resetAt ≤ now →
      checkRateLimit now (some e) maxRequests windowMs =
        (true, { count := 1, resetAt := now + windowMs })) ∧
    runRateLimit 5 1000 [0, 0, 0, 0, 0, 0, 1000] none =
      [true, true, true, true, true, false, true] := by
  refine ⟨fun now maxR w => rfl, ?_, ?_, ?_, by decide⟩
  · intro now e maxR w h1 h2
    simp only [checkRateLimit]
    rw [if_neg (by omega), if_neg (by omega)]
  · intro now e maxR w h1 h2
    simp only [checkRateLimit]
    rw [if_neg (by omega), if_pos h2]
  · intro now e maxR w h1
    simp only [checkRateLimit]
    rw [if_pos h1]

/-- C4 witness: the three conditional clauses of the fixed-window theorem
applied at concrete states. -/
theorem mv_C4_rate_limiter_fixed_window_witness :
    checkRateLimit 10 (some { count := 2, resetAt := 50 }) 5 1000 =
      (true, { count := 3, resetAt := 50 }) ∧
    checkRateLimit 10 (some { count := 5, resetAt := 50 }) 5 1000 =
      (false, { count := 5, resetAt := 50 }) ∧
    checkRateLimit 60 (some { count := 5, resetAt := 50 }) 5 1000 =
      (true, { count := 1, resetAt := 1060 }) :=
  ⟨mv_C4_rate_limiter_fixed_window.2.1 10 { count := 2, resetAt := 50 } 5 1000
      (by decide) (by decide),
    mv_C4_rate_limiter_fixed_window.2.2.1 10 { count := 5, resetAt := 50 } 5 1000
      (by decide) (by decide),
    mv_C4_rate_limiter_fixed_window.2.2.2.1 60 { count := 5, resetAt := 50 } 5 1000
      (by decide)⟩

/-- C1: evaluation of the dispatcher's error classification at a
transport-level timeout.  An axios timeout is raised after the request
has been dispatched, so the error carries the request object
(response = none, request = true, code = ECONNABORTED).  Because the
source checks `error.request` before `error.code === 'ECONNABORTED'`,
such an error is classified by the network-error branch — message
"Network error: Cannot reach API at <url>", status label
"network error" — and the same holds for extractErrorMessage and
getStatusMessage used by the camera and image dispatchers.  The Timeout
branch with its message "Timeout: Request took longer than <timeout>ms"
is reached only when the error carries no request object (last
conjunct), which a transport-level timeout never satisfies: the code's
own Timeout branch is unreachable for real timeouts, contradicting the
claim that timeouts are classified as Timeout. -/
theorem mv_C1_timeout_shadowed_by_network_branch :
    classifyVisionError
      { response := none, request := true, code := some "ECONNABORTED",
        message := "timeout of 30000ms exceeded" }
      "http://localhost:8000/api/vision/aruco-detect" 30000 =
      { errorMessage :=
          "Network error: Cannot reach API at http://localhost:8000/api/vision/aruco-detect"
        statusMessage := "network error" } ∧
    extractErrorMessage
      { response := none, request := true, code := some "ECONNABORTED",
        message := "timeout of 30000ms exceeded" }
      "http://localhost:8000/api/vision/aruco-detect" 30000 =
      "Network error: Cannot reach API at http://localhost:8000/api/vision/aruco-detect" ∧
    getStatusMessage
      { response := none, request := true, code := some "ECONNABORTED",
        message := "timeout of 30000ms exceeded" } = "network error" ∧
    classifyVisionError
      { response := none, request := false, code := some "ECONNABORTED",
        message := "timeout of 30000ms exceeded" }
      "http://localhost:8000/api/vision/aruco-detect" 30000 =
      { errorMessage := "Timeout: Request took longer than 30000ms"
        statusMessage := "timeout" } := by
  refine ⟨rfl, rfl, rfl, ?_⟩
  decide

/-- C9 counterexample: for the empty config the builder does not leave
every documented default constant unchanged.  The constants module
documents BLUR_KERNEL_SIZE = 0 as the blur-kernel default, but 0 is
falsy, so the fallback chain `parseInt(...) || BLUR_KERNEL_SIZE || 5`
produces 5: the returned blur_kernel differs from the documented
constant. -/
theorem mv_C9_blur_kernel_counterexample :
    (buildEdgeDetectParams {}).blur_kernel = 5 ∧
    EDGE_DETECT.BLUR_KERNEL_SIZE = 0 ∧
    (buildEdgeDetectParams {}).blur_kernel ≠ EDGE_DETECT.BLUR_KERNEL_SIZE := by
  refine ⟨rfl, rfl, ?_⟩
  decide

/-- C9 (amended): buildEdgeDetectParams is total by construction and, for
the empty config, returns the complete parameter object in which every
documented default constant appears unchanged except the blur kernel,
where the documented constant 0 is falsy and the builder falls back to
the literal 5 (hardcoded sub-parameters keep their literals).  A numeric
string override is coerced to an integer (cannyLow "30" gives
canny_low 30, and in general any string parsing to a non-zero integer is
taken verbatim), and an override whose coercion fails (parseInt NaN)
falls back to the documented default rather than producing NaN. -/
theorem mv_C9_edge_params_builder :
    buildEdgeDetectParams {} =
      { method := "canny"
        canny_low := EDGE_DETECT.CANNY_LOW_THRESHOLD
        canny_high := EDGE_DETECT.CANNY_HIGH_THRESHOLD
        sobel_threshold := EDGE_DETECT.SOBEL_THRESHOLD
        sobel_kernel := EDGE_DETECT.SOBEL_KSIZE
        laplacian_threshold := EDGE_DETECT.LAPLACIAN_THRESHOLD
        laplacian_kernel := EDGE_DETECT.LAPLACIAN_KSIZE
        prewitt_threshold := EDGE_DETECT.PREWITT_THRESHOLD
        scharr_threshold := EDGE_DETECT.SCHARR_THRESHOLD
        morph_threshold := 30
        morph_kernel := 3
        min_contour_area := LIMITS.MIN_CONTOUR_AREA
        max_contour_area := LIMITS.MAX_CONTOUR_AREA
        min_contour_perimeter := 0
        max_contour_perimeter := 999999
        max_contours := LIMITS.MAX_CONTOURS
        show_centers := true
        blur_enabled := false
        blur_kernel := 5
        bilateral_enabled := false
        bilateral_d := 9
        bilateral_sigma_color := 75
        bilateral_sigma_space := 75
        morphology_enabled := false
        morphology_operation := "close"
        morphology_kernel := 3
        equalize_enabled := false } ∧
    (buildEdgeDetectParams { cannyLow := some "30" }).canny_low = 30 ∧
    (buildEdgeDetectParams { cannyLow := some "abc" }).canny_low =
      EDGE_DETECT.CANNY_LOW_THRESHOLD ∧
    (∀ (s : String) (n : Int), jsParseInt s = some n → n ≠ 0 →
      (buildEdgeDetectParams { cannyLow := some s }).canny_low = n) := by
  refine ⟨rfl, rfl, rfl, ?_⟩
  intro s n hs hn
  simp [buildEdgeDetectParams, parseIntOr, hs, hn]

/-- C9 witness: the general coercion clause applied at the string "30". -/
theorem mv_C9_edge_params_builder_witness :
    (buildEdgeDetectParams { cannyLow := some "30" }).canny_low = 30 :=
  mv_C9_edge_params_builder.2.2.2 "30" 30 (by decide) (by decide)

/-- C7: in the payload built by createVisionObjectMessage, each of the
optional fields area, perimeter, rotation and contour is present (as a
key, modelled by `some`) exactly when the raw field holds a value, i.e.
is neither absent nor null, and the value is copied unchanged; the key is
absent both for a missing raw field and for an explicit null.  The
properties mapping is copied when present and defaults to the empty
mapping otherwise. -/
theorem mv_C7_optional_fields_copied_iff_present (obj : RawVisionObject)
    (imageId timestamp : String) (thumbnail : Option String) :
    (∀ v : ℚ,
      (createVisionObjectMessage obj imageId timestamp thumbnail).payload.area = some v ↔
        obj.area = JField.val v) ∧
    ((createVisionObjectMessage obj imageId timestamp thumbnail).payload.area = none ↔
      (obj.area = JField.missing ∨ obj.area = JField.jnull)) ∧
    (∀ v : ℚ,
      (createVisionObjectMessage obj imageId timestamp thumbnail).payload.perimeter = some v ↔
        obj.perimeter = JField.val v) ∧
    ((createVisionObjectMessage obj imageId timestamp thumbnail).payload.perimeter = none ↔
      (obj.perimeter = JField.missing ∨ obj.perimeter = JField.jnull)) ∧
    (∀ v : ℚ,
      (createVisionObjectMessage obj imageId timestamp thumbnail).payload.rotation = some v ↔
        obj.rotation = JField.val v) ∧
    ((createVisionObjectMessage obj imageId timestamp thumbnail).payload.rotation = none ↔
      (obj.rotation = JField.missing ∨ obj.rotation = JField.jnull)) ∧
    (∀ v : List Point,
      (createVisionObjectMessage obj imageId timestamp thumbnail).payload.contour = some v ↔
        obj.contour = JField.val v) ∧
    ((createVisionObjectMessage obj imageId timestamp thumbnail).payload.contour = none ↔
      (obj.contour = JField.missing ∨ obj.contour = JField.jnull)) ∧
    ((obj.properties = JField.missing ∨ obj.properties = JField.jnull) →
      (createVisionObjectMessage obj imageId timestamp thumbnail).payload.properties = {}) ∧
    (∀ pr : Properties, obj.properties = JField.val pr →
      (createVisionObjectMessage obj imageId timestamp thumbnail).payload.properties = pr) := by
  refine ⟨?_, ?_, ?_, ?_, ?_, ?_, ?_, ?_, ?_, ?_⟩
  · intro v
    cases h : obj.area <;> simp [createVisionObjectMessage, jfieldOpt, h]
  · cases h : obj.area <;> simp [createVisionObjectMessage, jfieldOpt, h]
  · intro v
    cases h : obj.perimeter <;> simp [createVisionObjectMessage, jfieldOpt, h]
  · cases h : obj.perimeter <;> simp [createVisionObjectMessage, jfieldOpt, h]
  · intro v
    cases h : obj.rotation <;> simp [createVisionObjectMessage, jfieldOpt, h]
  · cases h : obj.rotation <;> simp [createVisionObjectMessage, jfieldOpt, h]
  · intro v
    cases h : obj.contour <;> simp [createVisionObjectMessage, jfieldOpt, h]
  · cases h : obj.contour <;> simp [createVisionObjectMessage, jfieldOpt, h]
  · intro h
    rcases h with h | h <;> simp [createVisionObjectMessage, h]
  · intro pr h
    simp [createVisionObjectMessage, h]

/-- C7 witness: a raw detection with area absent and rotation 45 yields a
payload with no area key, rotation 45, and the empty properties mapping. -/
theorem mv_C7_optional_fields_copied_iff_present_witness :
    (createVisionObjectMessage { rotation := JField.val 45 } "img1" "ts1"
        none).payload.area = none ∧
    (createVisionObjectMessage { rotation := JField.val 45 } "img1" "ts1"
        none).payload.rotation = some 45 ∧
    (createVisionObjectMessage { rotation := JField.val 45 } "img1" "ts1"
        none).payload.properties = {} :=
  ⟨(mv_C7_optional_fields_copied_iff_present { rotation := JField.val 45 } "img1" "ts1"
      none).2.1.mpr (Or.inl rfl),
    ((mv_C7_optional_fields_copied_iff_present { rotation := JField.val 45 } "img1" "ts1"
      none).2.2.2.2.1 45).mpr rfl,
    (mv_C7_optional_fields_copied_iff_present { rotation := JField.val 45 } "img1" "ts1"
      none).2.2.2.2.2.2.2.2.1 (Or.inl rfl)⟩

/-- Ordering against NaN: comparing below zero is false for NaN and for
any value that is non-negative when finite. -/
theorem jlt_zero_eq_false (x : JNum) (h : ∀ q : ℚ, x = JNum.fin q → 0 ≤ q) :
    jlt x (JNum.fin 0) = false := by
  cases x with
  | nan => rfl
  | fin q =>
    simp [jlt]
    exact h q rfl

/-- Ordering against NaN: comparing at-or-below zero is false for NaN and
for any value that is positive when finite. -/
theorem jle_zero_eq_false (x : JNum) (h : ∀ q : ℚ, x = JNum.fin q → 0 < q) :
    jle x (JNum.fin 0) = false := by
  cases x with
  | nan => rfl
  | fin q =>
    simp [jle]
    exact h q rfl

/-- C10 counterexample: an ROI whose four properties are all present
numbers and whose width is NaN, yet validateROI (without max-dimension
options) returns invalid, because the non-NaN field y is negative and the
`y < 0` rejection branch fires.  This refutes the claim that any such ROI
still yields valid = true. -/
theorem mv_C10_nan_roi_counterexample :
    validateROI (ROIArg.obj (numROI (JNum.fin 0) (JNum.fin (-5)) JNum.nan (JNum.fin 3))) {} =
      { valid := false, error := some "ROI x and y must be non-negative" } := by
  decide

/-- C10 (amended): for an ROI whose four properties are present numbers,
at least one of them NaN, validateROI without max-dimension options
returns valid = true provided every non-NaN field satisfies its own
constraint (x, y non-negative; width, height positive): the typeof check
accepts NaN and every ordering comparison against NaN is false, so a NaN
field never fires a rejection branch. -/
theorem mv_C10_nan_roi_accepted (x y w h : JNum)
    (_hnan : x = JNum.nan ∨ y = JNum.nan ∨ w = JNum.nan ∨ h = JNum.nan)
    (hx : ∀ q : ℚ, x = JNum.fin q → 0 ≤ q) (hy : ∀ q : ℚ, y = JNum.fin q → 0 ≤ q)
    (hw : ∀ q : ℚ, w = JNum.fin q → 0 < q) (hh : ∀ q : ℚ, h = JNum.fin q → 0 < q) :
    validateROI (ROIArg.obj (numROI x y w h)) {} = { valid := true } := by
  simp only [validateROI, numROI]
  rw [jlt_zero_eq_false x hx, jlt_zero_eq_false y hy,
    jle_zero_eq_false w hw, jle_zero_eq_false h hh]
  rfl

/-- C10 witness: the claim's own example, width = NaN with the remaining
fields well-formed, is accepted. -/
theorem mv_C10_nan_roi_accepted_witness :
    validateROI (ROIArg.obj (numROI (JNum.fin 0) (JNum.fin 0) JNum.nan (JNum.fin 3))) {} =
      { valid := true } :=
  mv_C10_nan_roi_accepted (JNum.fin 0) (JNum.fin 0) JNum.nan (JNum.fin 3)
    (Or.inr (Or.inr (Or.inl rfl)))
    (by intro q hq; injection hq with hq; subst hq; exact le_refl 0)
    (by intro q hq; injection hq with hq; subst hq; exact le_refl 0)
    (by intro q hq; cases hq)
    (by intro q hq; injection hq with hq; subst hq; norm_num)

/-- C3: for an HTTP error response the dispatcher's classification is a
function of the status code — 404 gives "Not found" with label
"not found", 400 gives "Invalid request", 401 or 403 give
"Authentication error", any status at or above 500 gives "Server error",
and any other non-2xx status gives the generic classification whose
message spells out the numeric status code ("API error (<status>)",
label "error <status>").  In every case the detail text appended to the
message is responseDetail: the response body's detail field when it is
present (the source's truthiness guard reads an empty detail as absent),
otherwise the response's reason phrase. -/
theorem mv_C3_http_status_classification (r : HttpResponse) (req : Bool)
    (code : Option String) (m url : String) (t : Nat) :
    (r.status = 404 →
      classifyVisionError { response := some r, request := req, code := code, message := m }
          url t =
        { errorMessage := "Not found: " ++ responseDetail r, statusMessage := "not found" }) ∧
    (r.status = 400 →
      classifyVisionError { response := some r, request := req, code := code, message := m }
          url t =
        { errorMessage := "Invalid request: " ++ responseDetail r
          statusMessage := "invalid request" }) ∧
    (r.status = 401 ∨ r.status = 403 →
      classifyVisionError { response := some r, request := req, code := code, message := m }
          url t =
        { errorMessage := "Authentication error: " ++ responseDetail r
          statusMessage := "auth error" }) ∧
    (500 ≤ r.status →
      classifyVisionError { response := some r, request := req, code := code, message := m }
          url t =
        { errorMessage := "Server error: " ++ responseDetail r
          statusMessage := "server error" }) ∧
    ((r.status < 200 ∨ 300 ≤ r.status) → r.status ≠ 404 → r.status ≠ 400 →
      r.status ≠ 401 → r.status ≠ 403 → r.status < 500 →
      classifyVisionError { response := some r, request := req, code := code, message := m }
          url t =
        { errorMessage := "API error (" ++ toString r.status ++ "): " ++ responseDetail r
          statusMessage := "error " ++ toString r.status }) ∧
    (∀ d : String, r.detail = some d → d ≠ "" → responseDetail r = d) ∧
    (r.detail = none → responseDetail r = r.statusText) := by
  refine ⟨?_, ?_, ?_, ?_, ?_, ?_, ?_⟩
  · intro h
    simp only [classifyVisionError]
    rw [if_pos h]
  · intro h
    simp only [classifyVisionError]
    rw [if_neg (by omega), if_pos h]
  · intro h
    simp only [classifyVisionError]
    rw [if_neg (by omega), if_neg (by omega), if_pos h]
  · intro h
    simp only [classifyVisionError]
    rw [if_neg (by omega), if_neg (by omega), if_neg (by omega), if_pos h]
  · intro _h h404 h400 h401 h403 h500
    simp only [classifyVisionError]
    rw [if_neg h404, if_neg h400, if_neg (by omega), if_neg (by omega)]
  · intro d hd hne
    simp [responseDetail, hd, hne]
  · intro hd
    simp [responseDetail, hd]

/-- C3 witness: a 404 reply carrying detail "Template not found" is
classified NotFound with that detail in the message and status label
"not found" (the scenario of the spec's dispatcher test), and a 418 reply
without a detail field falls to the generic classification naming the
status code and the reason phrase. -/
theorem mv_C3_http_status_classification_witness :
    classifyVisionError
      { response := some { status := 404, detail := some "Template not found", statusText := "Not Found" }, request := false, code := none, message := "" }
      "http://localhost:8000/api/vision/template-match" 5000 =
      { errorMessage := "Not found: Template not found", statusMessage := "not found" } ∧
    classifyVisionError
      { response := some { status := 418, detail := none, statusText := "I am a teapot" }, request := false, code := none, message := "" }
      "http://localhost:8000/api/vision/template-match" 5000 =
      { errorMessage := "API error (418): I am a teapot", statusMessage := "error 418" } :=
  ⟨((mv_C3_http_status_classification
      { status := 404, detail := some "Template not found", statusText := "Not Found" }
      false none "" "http://localhost:8000/api/vision/template-match" 5000).1 rfl).trans
      (by decide),
    ((mv_C3_http_status_classification
      { status := 418, detail := none, statusText := "I am a teapot" }
      false none "" "http://localhost:8000/api/vision/template-match" 5000).2.2.2.2.1
      (Or.inr (by decide)) (by decide) (by decide) (by decide) (by decide) (by decide)).trans
      (by decide)⟩

/-- C8: a dispatch without a config node fails fast — getApiSettings
fails with the "Missing API configuration" error, and callVisionAPI
propagates exactly that error with the "no config" status, for every
possible transport, without the HTTP call ever being attempted
(httpAttempted = false).  For a present config the resolved settings
default the base URL and the timeout to the documented defaults when the
fields are absent, the headers always include the JSON content type, an
X-API-Key header is present exactly when a credentials object with a
configured (present, non-empty — the source's truthiness guard) apiKey
exists, and a bearer Authorization header is present exactly when a
configured apiToken exists. -/
theorem mv_C8_config_fail_fast_and_headers :
    (getApiSettings none =
      Except.error "Missing API configuration. Please configure mv-config node.") ∧
    (∀ (α : Type) (endpoint : String)
      (transport : String → Nat → List (String × String) → Except AxiosError α),
      callVisionAPI none endpoint transport =
        { result :=
            Except.error "Missing API configuration. Please configure mv-config node."
          statuses := [statusFor "error" (some "no config")]
          loggedErrors := ["Missing API configuration. Please configure mv-config node."]
          httpAttempted := false }) ∧
    (∀ cfg : ApiConfig, cfg.apiUrl = none → cfg.timeout = none →
      (resolveSettings cfg).apiUrl = API_DEFAULT_URL ∧
      (resolveSettings cfg).timeout = API_DEFAULT_TIMEOUT) ∧
    API_DEFAULT_URL = "http://localhost:8000" ∧
    API_DEFAULT_TIMEOUT = 30000 ∧
    (∀ cfg : ApiConfig,
      ("Content-Type", "application/json") ∈ (resolveSettings cfg).headers) ∧
    (∀ (cfg : ApiConfig) (v : String),
      ("X-API-Key", v) ∈ (resolveSettings cfg).headers ↔
        ∃ creds : Credentials, cfg.credentials = some creds ∧
          creds.apiKey = some v ∧ v ≠ "") ∧
    (∀ (cfg : ApiConfig) (v : String),
      ("Authorization", v) ∈ (resolveSettings cfg).headers ↔
        ∃ (creds : Credentials) (tok : String), cfg.credentials = some creds ∧
          creds.apiToken = some tok ∧ tok ≠ "" ∧ v = "Bearer " ++ tok) := by
  refine ⟨rfl, fun α endpoint transport => rfl, ?_, rfl, rfl, ?_, ?_, ?_⟩
  · intro cfg h1 h2
    constructor
    · simp [resolveSettings, jsOrString, h1]
    · simp [resolveSettings, jsOrNat, h2]
  · intro cfg
    simp [resolveSettings]
  · intro cfg v
    rcases hc : cfg.credentials with _ | creds
    · simp [resolveSettings, credentialHeaders, hc]
    · rcases hk : creds.apiKey with _ | k <;> rcases ht : creds.apiToken with _ | t <;>
        simp [resolveSettings, credentialHeaders, hc, hk, ht] <;>
        (try (constructor <;> rintro ⟨h1, h2⟩ <;> simp_all))
  · intro cfg v
    rcases hc : cfg.credentials with _ | creds
    · simp [resolveSettings, credentialHeaders, hc]
    · rcases hk : creds.apiKey with _ | k <;> rcases ht : creds.apiToken with _ | t <;>
        simp [resolveSettings, credentialHeaders, hc, hk, ht]

/-- C8 witness: the conditional clauses applied at a concrete config with
both credentials configured and neither URL nor timeout set. -/
theorem mv_C8_config_fail_fast_and_headers_witness :
    ((resolveSettings { credentials := some { apiKey := some "k1", apiToken := some "t1" } }).apiUrl = "http://localhost:8000" ∧
      (resolveSettings { credentials := some { apiKey := some "k1", apiToken := some "t1" } }).timeout = 30000) ∧
    ("Content-Type", "application/json") ∈
      (resolveSettings { credentials := some { apiKey := some "k1", apiToken := some "t1" } }).headers ∧
    ("X-API-Key", "k1") ∈
      (resolveSettings { credentials := some { apiKey := some "k1", apiToken := some "t1" } }).headers ∧
    ("Authorization", "Bearer t1") ∈
      (resolveSettings { credentials := some { apiKey := some "k1", apiToken := some "t1" } }).headers :=
  ⟨(mv_C8_config_fail_fast_and_headers.2.2.1
      { credentials := some { apiKey := some "k1", apiToken := some "t1" } } rfl rfl),
    mv_C8_config_fail_fast_and_headers.2.2.2.2.2.1
      { credentials := some { apiKey := some "k1", apiToken := some "t1" } },
    (mv_C8_config_fail_fast_and_headers.2.2.2.2.2.2.1
      { credentials := some { apiKey := some "k1", apiToken := some "t1" } } "k1").mpr
      ⟨{ apiKey := some "k1", apiToken := some "t1" }, rfl, rfl, by decide⟩,
    (mv_C8_config_fail_fast_and_headers.2.2.2.2.2.2.2
      { credentials := some { apiKey := some "k1", apiToken := some "t1" } } "Bearer t1").mpr
      ⟨{ apiKey := some "k1", apiToken := some "t1" }, "t1", rfl, rfl, by decide, rfl⟩⟩

/-- A sequence starting with a character outside a class is never
contained in a string all of whose characters are in the class. -/
theorem containsSeq_eq_false_of_all (p : Char → Bool) (c : Char) (sub : List Char)
    (hc : p c = false) :
    ∀ l : List Char, l.all p = true → containsSeq l (c :: sub) = false := by
  intro l
  induction l with
  | nil => intro _; rfl
  | cons a t ih =>
    intro hall
    simp only [List.all_cons, Bool.and_eq_true] at hall
    have hca : (c == a) = false := by
      apply beq_eq_false_iff_ne.mpr
      intro h
      rw [h, hall.1] at hc
      exact absurd hc (by decide)
    show ((c == a) && List.isPrefixOf sub t || containsSeq t (c :: sub)) = false
    rw [hca, Bool.false_and, Bool.false_or]
    exact ih hall.2

/-- Path-traversal rejection of validateImageId: any string containing
`..`, `/` or `\` is rejected with the path-traversal message. -/
theorem validateImageId_traversal (s : String)
    (h : (containsSeq s.data ['.', '.'] || containsSeq s.data ['/'] ||
      containsSeq s.data ['\\']) = true) :
    validateImageId (ImageIdArg.str s) =
      { valid := false,
        error := some "Image ID contains invalid characters (path traversal attempt)" } := by
  by_cases hs : s = ""
  · rw [hs] at h
    exact absurd h (by decide)
  · simp only [validateImageId]
    rw [if_neg hs, if_pos h]

/-- Acceptance of validateImageId: any string of 1 to 255 characters from
the class `[A-Za-z0-9_-]` is returned valid with itself as sanitized
value. -/
theorem validateImageId_pattern_valid (s : String) (hp : idPattern255 s = true) :
    validateImageId (ImageIdArg.str s) = { valid := true, sanitized := some s } := by
  simp only [idPattern255, Bool.and_eq_true, decide_eq_true_eq] at hp
  obtain ⟨⟨hall, hlen1⟩, hlen2⟩ := hp
  have hne : s ≠ "" := by
    intro h
    rw [h] at hlen1
    exact absurd hlen1 (by decide)
  have h1 := containsSeq_eq_false_of_all isIdChar '.' ['.'] (by decide) s.data hall
  have h2 := containsSeq_eq_false_of_all isIdChar '/' [] (by decide) s.data hall
  have h3 := containsSeq_eq_false_of_all isIdChar '\\' [] (by decide) s.data hall
  have hreg : idRegexTest s = true := by
    simp only [idRegexTest, hall, Bool.and_true]
    cases hd : s.data with
    | nil => rw [hd] at hlen1; exact absurd hlen1 (by decide)
    | cons c cs => rfl
  have hl1 : ¬s.length = 0 := by
    show ¬s.data.length = 0
    omega
  have hl2 : s.length ≤ 255 := by
    show s.data.length ≤ 255
    omega
  simp [validateImageId, hne, h1, h2, h3, hreg]
  exact ⟨hl1, hl2⟩

/-- Rejection of validateImageId: any string outside the 1-to-255
identifier pattern is invalid. -/
theorem validateImageId_invalid_of_not_pattern (s : String)
    (hp : idPattern255 s = false) :
    (validateImageId (ImageIdArg.str s)).valid = false := by
  by_cases h0 : s = ""
  · rw [h0]
    decide
  · by_cases htrav : (containsSeq s.data ['.', '.'] || containsSeq s.data ['/'] ||
      containsSeq s.data ['\\']) = true
    · rw [validateImageId_traversal s htrav]
    · by_cases hreg : idRegexTest s = true
      · have hall : s.data.all isIdChar = true := by
          simp only [idRegexTest, Bool.and_eq_true] at hreg
          exact hreg.2
        have hnonempty : 1 ≤ s.data.length := by
          simp only [idRegexTest, Bool.and_eq_true, Bool.not_eq_true'] at hreg
          cases hd : s.data with
          | nil => rw [hd] at hreg; exact absurd hreg.1 (by decide)
          | cons c cs => simp
        have hlong : s.data.length > 255 := by
          by_contra hle
          rw [show idPattern255 s = true by
            simp only [idPattern255, Bool.and_eq_true, decide_eq_true_eq]
            exact ⟨⟨hall, hnonempty⟩, by omega⟩] at hp
          exact absurd hp (by decide)
        simp only [validateImageId]
        rw [if_neg h0, if_neg htrav, if_neg (by rw [hreg]; decide),
          if_pos (by simp only [Bool.or_eq_true, decide_eq_true_eq]; exact Or.inr hlong)]
      · simp only [validateImageId]
        rw [if_neg h0, if_neg htrav, if_pos (by simp [Bool.not_eq_true] at hreg; simp [hreg])]

/-- C5: validateImageId rejects every string containing `..`, `/` or `\`
with the path-traversal message; accepts every string matching
`^[A-Za-z0-9_-]{1,255}$` (idPattern255) with the sanitized value equal to
the input; and rejects every non-string, the empty string, and every
string outside the pattern (which covers non-matching characters and
lengths above 255). -/
theorem mv_C5_validate_image_id :
    (∀ s : String,
      (containsSeq s.data ['.', '.'] || containsSeq s.data ['/'] ||
        containsSeq s.data ['\\']) = true →
      validateImageId (ImageIdArg.str s) =
        { valid := false,
          error := some "Image ID contains invalid characters (path traversal attempt)" }) ∧
    (∀ s : String, idPattern255 s = true →
      validateImageId (ImageIdArg.str s) = { valid := true, sanitized := some s }) ∧
    validateImageId ImageIdArg.nonString =
      { valid := false, error := some "Image ID must be a non-empty string" } ∧
    validateImageId (ImageIdArg.str "") =
      { valid := false, error := some "Image ID must be a non-empty string" } ∧
    (∀ s : String, idPattern255 s = false →
      (validateImageId (ImageIdArg.str s)).valid = false) :=
  ⟨validateImageId_traversal, validateImageId_pattern_valid, rfl, rfl,
    validateImageId_invalid_of_not_pattern⟩

/-- C5 witness: the three conditional clauses applied at concrete
strings — a traversal attempt, a well-formed identifier, and a string
with a forbidden character. -/
theorem mv_C5_validate_image_id_witness :
    validateImageId (ImageIdArg.str "../etc") =
      { valid := false,
        error := some "Image ID contains invalid characters (path traversal attempt)" } ∧
    validateImageId (ImageIdArg.str "abc_123") =
      { valid := true, sanitized := some "abc_123" } ∧
    (validateImageId (ImageIdArg.str "bad id")).valid = false :=
  ⟨mv_C5_validate_image_id.1 "../etc" (by decide),
    mv_C5_validate_image_id.2.1 "abc_123" (by decide),
    mv_C5_validate_image_id.2.2.2.2 "bad id" (by decide)⟩

/-- A max-dimension check never fires on a value that is at most the
limit under JavaScript comparison. -/
theorem max_check_not_fired (v m : JNum) (hle : jle v m = true) :
    (jnumTruthy m && jlt m v) = false := by
  cases m with
  | nan => simp [jle] at hle
  | fin qm =>
    cases v with
    | nan => simp [jle] at hle
    | fin qv =>
      simp [jle] at hle
      simp [jlt]
      intro _
      exact hle

/-- The tail checks of validateROI succeed when each given limit is
respected under JavaScript comparison. -/
theorem validateROIMax_valid (opts : ROIOptions) (w h : JNum)
    (hw : ∀ m : JNum, opts.maxWidth = some m → jle w m = true)
    (hh : ∀ m : JNum, opts.maxHeight = some m → jle h m = true) :
    validateROIMax opts w h = { valid := true } := by
  obtain ⟨mW, mH⟩ := opts
  cases mW with
  | none =>
    cases mH with
    | none => rfl
    | some m =>
      simp only [validateROIMax]
      rw [max_check_not_fired h m (hh m rfl)]
      rfl
  | some m =>
    simp only [validateROIMax]
    rw [max_check_not_fired w m (hw m rfl)]
    cases mH with
    | none => rfl
    | some mh =>
      simp only [Bool.false_eq_true, if_false]
      rw [max_check_not_fired h mh (hh mh rfl)]
      rfl

/-- Reduction of validateROI on an ROI whose four properties are present
numbers: the remaining checks in source order. -/
theorem validateROI_num (x y w h : JNum) (opts : ROIOptions) :
    validateROI (ROIArg.obj { x := some (JVal.num x), y := some (JVal.num y), width := some (JVal.num w), height := some (JVal.num h) }) opts =
    if (jlt x (JNum.fin 0) || jlt y (JNum.fin 0)) = true then
      { valid := false, error := some "ROI x and y must be non-negative" }
    else if (jle w (JNum.fin 0) || jle h (JNum.fin 0)) = true then
      { valid := false, error := some "ROI width and height must be positive" }
    else validateROIMax opts w h := rfl

/-- C6: validateROI accepts every ROI object whose four properties are
present finite numbers with x, y non-negative, width, height positive,
and within each given max dimension (under JavaScript comparison, with
the source's truthiness guard on the limits: a zero or NaN limit
disables its check); it rejects a non-object argument, an object with a
missing property, a non-numeric property, a negative x or y, a
non-positive width or height, and a width/height above a given truthy
limit.  For every rejection cause the theorem concludes the exact error
message naming the violated constraint: unconditionally for the
non-object and missing-property causes (the first two checks), and — since
the source reports the message of the first violated check in source
order — under the hypotheses that the preceding checks pass for the
non-numeric, negative-x/y, non-positive-width/height and max-exceeded
causes, with invalidity alone also proved under the weaker per-cause
hypotheses.  The function is total by construction, so it never throws. -/
theorem mv_C6_validate_roi (r : ROIInput) (opts : ROIOptions) :
    (∀ qx qy qw qh : ℚ,
      r.x = some (JVal.num (JNum.fin qx)) → r.y = some (JVal.num (JNum.fin qy)) →
      r.width = some (JVal.num (JNum.fin qw)) → r.height = some (JVal.num (JNum.fin qh)) →
      0 ≤ qx → 0 ≤ qy → 0 < qw → 0 < qh →
      (∀ m : JNum, opts.maxWidth = some m → jle (JNum.fin qw) m = true) →
      (∀ m : JNum, opts.maxHeight = some m → jle (JNum.fin qh) m = true) →
      validateROI (ROIArg.obj r) opts = { valid := true }) ∧
    (validateROI ROIArg.nonObject opts =
      { valid := false, error := some "ROI must be an object" }) ∧
    ((r.x = none ∨ r.y = none ∨ r.width = none ∨ r.height = none) →
      validateROI (ROIArg.obj r) opts =
        { valid := false, error := some "ROI must have x, y, width, and height properties" }) ∧
    ((r.x = some JVal.other ∨ r.y = some JVal.other ∨ r.width = some JVal.other ∨
        r.height = some JVal.other) →
      (validateROI (ROIArg.obj r) opts).valid = false) ∧
    (∀ q : ℚ, (r.x = some (JVal.num (JNum.fin q)) ∨ r.y = some (JVal.num (JNum.fin q))) →
      q < 0 → (validateROI (ROIArg.obj r) opts).valid = false) ∧
    (∀ q : ℚ,
      (r.width = some (JVal.num (JNum.fin q)) ∨ r.height = some (JVal.num (JNum.fin q))) →
      q ≤ 0 → (validateROI (ROIArg.obj r) opts).valid = false) ∧
    (∀ m wv : JNum, opts.maxWidth = some m → jnumTruthy m = true →
      r.width = some (JVal.num wv) → jlt m wv = true →
      (validateROI (ROIArg.obj r) opts).valid = false) ∧
    (∀ m hv : JNum, opts.maxHeight = some m → jnumTruthy m = true →
      r.height = some (JVal.num hv) → jlt m hv = true →
      (validateROI (ROIArg.obj r) opts).valid = false) ∧
    (∀ xv yv wv hv : JVal, r.x = some xv → r.y = some yv → r.width = some wv →
      r.height = some hv →
      (xv = JVal.other ∨ yv = JVal.other ∨ wv = JVal.other ∨ hv = JVal.other) →
      validateROI (ROIArg.obj r) opts =
        { valid := false, error := some "ROI coordinates must be numbers" }) ∧
    (∀ x y w h : JNum, r.x = some (JVal.num x) → r.y = some (JVal.num y) →
      r.width = some (JVal.num w) → r.height = some (JVal.num h) →
      ((∃ q : ℚ, x = JNum.fin q ∧ q < 0) ∨ (∃ q : ℚ, y = JNum.fin q ∧ q < 0)) →
      validateROI (ROIArg.obj r) opts =
        { valid := false, error := some "ROI x and y must be non-negative" }) ∧
    (∀ x y w h : JNum, r.x = some (JVal.num x) → r.y = some (JVal.num y) →
      r.width = some (JVal.num w) → r.height = some (JVal.num h) →
      jlt x (JNum.fin 0) = false → jlt y (JNum.fin 0) = false →
      ((∃ q : ℚ, w = JNum.fin q ∧ q ≤ 0) ∨ (∃ q : ℚ, h = JNum.fin q ∧ q ≤ 0)) →
      validateROI (ROIArg.obj r) opts =
        { valid := false, error := some "ROI width and height must be positive" }) ∧
    (∀ x y w h : JNum, r.x = some (JVal.num x) → r.y = some (JVal.num y) →
      r.width = some (JVal.num w) → r.height = some (JVal.num h) →
      jlt x (JNum.fin 0) = false → jlt y (JNum.fin 0) = false →
      jle w (JNum.fin 0) = false → jle h (JNum.fin 0) = false →
      ∀ m : JNum, opts.maxWidth = some m → jnumTruthy m = true → jlt m w = true →
      validateROI (ROIArg.obj r) opts =
        { valid := false, error := some (roiWidthExceedsMsg m) }) ∧
    (∀ x y w h : JNum, r.x = some (JVal.num x) → r.y = some (JVal.num y) →
      r.width = some (JVal.num w) → r.height = some (JVal.num h) →
      jlt x (JNum.fin 0) = false → jlt y (JNum.fin 0) = false →
      jle w (JNum.fin 0) = false → jle h (JNum.fin 0) = false →
      (∀ m' : JNum, opts.maxWidth = some m' → (jnumTruthy m' && jlt m' w) = false) →
      ∀ m : JNum, opts.maxHeight = some m → jnumTruthy m = true → jlt m h = true →
      validateROI (ROIArg.obj r) opts =
        { valid := false, error := some (roiHeightExceedsMsg m) }) := by
  obtain ⟨a, b, c, d⟩ := r
  refine ⟨?_, rfl, ?_, ?_, ?_, ?_, ?_, ?_, ?_, ?_, ?_, ?_, ?_⟩
  · intro qx qy qw qh hx hy hw hh h0x h0y h0w h0h hmw hmh
    simp only at hx hy hw hh
    subst hx hy hw hh
    have e1 : jlt (JNum.fin qx) (JNum.fin 0) = false := by
      simp [jlt]
      exact h0x
    have e2 : jlt (JNum.fin qy) (JNum.fin 0) = false := by
      simp [jlt]
      exact h0y
    have e3 : jle (JNum.fin qw) (JNum.fin 0) = false := by
      simp [jle]
      exact h0w
    have e4 : jle (JNum.fin qh) (JNum.fin 0) = false := by
      simp [jle]
      exact h0h
    simp only [validateROI, e1, e2, e3, e4, Bool.or_self, Bool.false_eq_true, if_false]
    exact validateROIMax_valid opts (JNum.fin qw) (JNum.fin qh) hmw hmh
  · intro hmiss
    rcases a with _ | (na | _) <;> rcases b with _ | (nb | _) <;>
      rcases c with _ | (nc | _) <;> rcases d with _ | (nd | _) <;>
      simp_all [validateROI]
  · intro hov
    rcases a with _ | (na | _) <;> rcases b with _ | (nb | _) <;>
      rcases c with _ | (nc | _) <;> rcases d with _ | (nd | _) <;>
      simp_all [validateROI]
  · intro q hq hneg
    rcases a with _ | (na | _) <;> rcases b with _ | (nb | _) <;>
      rcases c with _ | (nc | _) <;> rcases d with _ | (nd | _) <;>
      first
      | (simp_all [validateROI]; done)
      | (rw [validateROI_num]
         rcases hq with hm | hm <;>
           simp only [Option.some.injEq, JVal.num.injEq] at hm <;> subst hm <;>
           simp [jlt, hneg])
  · intro q hq hnp
    rcases a with _ | (na | _) <;> rcases b with _ | (nb | _) <;>
      rcases c with _ | (nc | _) <;> rcases d with _ | (nd | _) <;>
      first
      | (simp_all [validateROI]; done)
      | (rw [validateROI_num]
         rcases hq with hm | hm <;>
           simp only [Option.some.injEq, JVal.num.injEq] at hm <;> subst hm <;>
           (by_cases hc1 : (jlt na (JNum.fin 0) || jlt nb (JNum.fin 0)) = true
            · simp [hc1]
            · simp [hc1, jle, hnp]))
  · intro m wv hmw htr hw hlt
    rcases a with _ | (na | _) <;> rcases b with _ | (nb | _) <;>
      rcases c with _ | (nc | _) <;> rcases d with _ | (nd | _) <;>
      first
      | (simp_all [validateROI]; done)
      | (rw [validateROI_num]
         simp only [Option.some.injEq, JVal.num.injEq] at hw
         subst hw
         obtain ⟨mW, mH⟩ := opts
         simp only at hmw
         subst hmw
         by_cases hc1 : (jlt na (JNum.fin 0) || jlt nb (JNum.fin 0)) = true
         · simp [hc1]
         · by_cases hc2 : (jle nc (JNum.fin 0) || jle nd (JNum.fin 0)) = true
           · simp [hc1, hc2]
           · simp [hc1, hc2, validateROIMax, htr, hlt])
  · intro m hv hmh htr hh hlt
    rcases a with _ | (na | _) <;> rcases b with _ | (nb | _) <;>
      rcases c with _ | (nc | _) <;> rcases d with _ | (nd | _) <;>
      first
      | (simp_all [validateROI]; done)
      | (rw [validateROI_num]
         simp only [Option.some.injEq, JVal.num.injEq] at hh
         subst hh
         obtain ⟨mW, mH⟩ := opts
         simp only at hmh
         subst hmh
         by_cases hc1 : (jlt na (JNum.fin 0) || jlt nb (JNum.fin 0)) = true
         · simp [hc1]
         · by_cases hc2 : (jle nc (JNum.fin 0) || jle nd (JNum.fin 0)) = true
           · simp [hc1, hc2]
           · rcases mW with _ | mw
             · simp [hc1, hc2, validateROIMax, htr, hlt]
             · by_cases hc3 : (jnumTruthy mw && jlt mw nc) = true
               · simp [hc1, hc2, validateROIMax, hc3]
               · simp [hc1, hc2, validateROIMax, hc3, htr, hlt])
  · intro xv yv wv hv hx hy hw hh hdisj
    simp only at hx hy hw hh
    subst hx hy hw hh
    rcases xv with nx | _ <;> rcases yv with ny | _ <;> rcases wv with nw | _ <;>
      rcases hv with nh | _ <;> simp_all [validateROI]
  · intro x y w h hx hy hw hh hneg
    simp only at hx hy hw hh
    subst hx hy hw hh
    rw [validateROI_num]
    have hc : (jlt x (JNum.fin 0) || jlt y (JNum.fin 0)) = true := by
      rcases hneg with ⟨q, hq, hql⟩ | ⟨q, hq, hql⟩ <;> subst hq <;> simp [jlt, hql]
    rw [if_pos hc]
  · intro x y w h hx hy hw hh hx0 hy0 hnp
    simp only at hx hy hw hh
    subst hx hy hw hh
    rw [validateROI_num, hx0, hy0, if_neg (by decide)]
    have hc : (jle w (JNum.fin 0) || jle h (JNum.fin 0)) = true := by
      rcases hnp with ⟨q, hq, hql⟩ | ⟨q, hq, hql⟩ <;> subst hq <;> simp [jle, hql]
    rw [if_pos hc]
  · intro x y w h hx hy hw hh hx0 hy0 hw0 hh0 m hmw htr hlt
    simp only at hx hy hw hh
    subst hx hy hw hh
    rw [validateROI_num, hx0, hy0, if_neg (by decide), hw0, hh0, if_neg (by decide)]
    obtain ⟨mW, mH⟩ := opts
    simp only at hmw
    subst hmw
    simp [validateROIMax, htr, hlt]
  · intro x y w h hx hy hw hh hx0 hy0 hw0 hh0 hnofire m hmh htr hlt
    simp only at hx hy hw hh
    subst hx hy hw hh
    rw [validateROI_num, hx0, hy0, if_neg (by decide), hw0, hh0, if_neg (by decide)]
    obtain ⟨mW, mH⟩ := opts
    simp only at hmh hnofire
    subst hmh
    rcases mW with _ | mw
    · simp [validateROIMax, htr, hlt]
    · have hnf := hnofire mw rfl
      simp [validateROIMax, hnf, htr, hlt]

/-- C6 witness: the acceptance clause at a well-formed ROI within given
max dimensions, the rejection clauses at a zero width and at a width
exceeding a truthy maxWidth, and the message clauses at a negative x and
at the exceeded maxWidth, each concluding the exact error message. -/
theorem mv_C6_validate_roi_witness :
    validateROI (ROIArg.obj (numROI (JNum.fin 10) (JNum.fin 20) (JNum.fin 100) (JNum.fin 50)))
      { maxWidth := some (JNum.fin 640), maxHeight := some (JNum.fin 480) } =
      { valid := true } ∧
    (validateROI (ROIArg.obj (numROI (JNum.fin 0) (JNum.fin 0) (JNum.fin 0) (JNum.fin 50)))
      {}).valid = false ∧
    (validateROI (ROIArg.obj (numROI (JNum.fin 0) (JNum.fin 0) (JNum.fin 700) (JNum.fin 50)))
      { maxWidth := some (JNum.fin 640) }).valid = false ∧
    validateROI (ROIArg.obj (numROI (JNum.fin (-1)) (JNum.fin 0) (JNum.fin 5) (JNum.fin 5)))
      {} = { valid := false, error := some "ROI x and y must be non-negative" } ∧
    validateROI (ROIArg.obj (numROI (JNum.fin 0) (JNum.fin 0) (JNum.fin 700) (JNum.fin 50)))
      { maxWidth := some (JNum.fin 640) } =
      { valid := false, error := some "ROI width exceeds maximum (640)" } :=
  ⟨(mv_C6_validate_roi
      (numROI (JNum.fin 10) (JNum.fin 20) (JNum.fin 100) (JNum.fin 50))
      { maxWidth := some (JNum.fin 640), maxHeight := some (JNum.fin 480) }).1
      10 20 100 50 rfl rfl rfl rfl (by norm_num) (by norm_num) (by norm_num) (by norm_num)
      (by intro m hm; injection hm with hm; subst hm; decide)
      (by intro m hm; injection hm with hm; subst hm; decide),
    (mv_C6_validate_roi
      (numROI (JNum.fin 0) (JNum.fin 0) (JNum.fin 0) (JNum.fin 50)) {}).2.2.2.2.2.1
      0 (Or.inl rfl) (by norm_num),
    (mv_C6_validate_roi
      (numROI (JNum.fin 0) (JNum.fin 0) (JNum.fin 700) (JNum.fin 50))
      { maxWidth := some (JNum.fin 640) }).2.2.2.2.2.2.1
      (JNum.fin 640) (JNum.fin 700) rfl (by decide) rfl (by decide),
    (mv_C6_validate_roi
      (numROI (JNum.fin (-1)) (JNum.fin 0) (JNum.fin 5) (JNum.fin 5))
      {}).2.2.2.2.2.2.2.2.2.1
      (JNum.fin (-1)) (JNum.fin 0) (JNum.fin 5) (JNum.fin 5) rfl rfl rfl rfl
      (Or.inl ⟨-1, rfl, by norm_num⟩),
    ((mv_C6_validate_roi
      (numROI (JNum.fin 0) (JNum.fin 0) (JNum.fin 700) (JNum.fin 50))
      { maxWidth := some (JNum.fin 640) }).2.2.2.2.2.2.2.2.2.2.2.1
      (JNum.fin 0) (JNum.fin 0) (JNum.fin 700) (JNum.fin 50) rfl rfl rfl rfl
      (by decide) (by decide) (by decide) (by decide)
      (JNum.fin 640) rfl (by decide) (by decide)).trans (by decide)⟩

/-- Past index 0, the ArUco emission loop is a map with the reference
object always taken from the first marker. -/
theorem arucoMessagesAux_map (first : RawVisionObject) (firstProps : Properties)
    (imageId timestamp : String) (thumbnail : Option String) (ptime : Option ℚ)
    (nodeName : Option String) :
    ∀ (l : List RawVisionObject) (i : Nat), i ≠ 0 →
      arucoMessagesAux first firstProps imageId timestamp thumbnail ptime nodeName i l =
        l.map (fun obj =>
          arucoOutMessage obj first firstProps imageId timestamp thumbnail ptime nodeName) := by
  intro l
  induction l with
  | nil => intro i _; rfl
  | cons obj rest ih =>
    intro i hi
    simp only [arucoMessagesAux, List.map_cons]
    rw [if_neg hi, ih (i + 1) (by omega)]
    rfl

/-- The whole ArUco emission loop, started at index 0 on a non-empty
objects array, is a map: at index 0 the reference object is built from
the current marker, which is the first marker. -/
theorem arucoMessages_eq_map (first : RawVisionObject) (firstProps : Properties)
    (rest : List RawVisionObject) (imageId timestamp : String) (thumbnail : Option String)
    (ptime : Option ℚ) (nodeName : Option String) :
    arucoMessagesAux first firstProps imageId timestamp thumbnail ptime nodeName 0
        (first :: rest) =
      (first :: rest).map
        (fun obj =>
          arucoOutMessage obj first firstProps imageId timestamp thumbnail ptime nodeName) := by
  simp only [arucoMessagesAux, List.map_cons, ite_true, Nat.zero_add]
  rw [arucoMessagesAux_map first firstProps imageId timestamp thumbnail ptime nodeName rest 1
    (by omega)]
  rfl

/-- The template-match emission loop is a map. -/
theorem templateMessages_eq_map (imageId timestamp : String) (thumbnail : Option String)
    (ptime : Option ℚ) (nodeName : Option String) :
    ∀ l : List RawVisionObject,
      templateMessages imageId timestamp thumbnail ptime nodeName l =
        l.map (fun obj => templateOutMessage obj imageId timestamp thumbnail ptime nodeName) := by
  intro l
  induction l with
  | nil => rfl
  | cons obj rest ih =>
    simp only [templateMessages, List.map_cons]
    rw [ih]
    rfl

/-- C2 counterexample: a successful ArUco response whose objects array
has exactly one entry, but whose first (and only) object carries no
properties mapping, produces zero outbound messages and a TypeError
handed to the completion callback — not one message per entry with no
error — because the reference-object construction dereferences
`obj.properties.marker_id` on the first marker before the first send. -/
theorem mv_C2_missing_properties_counterexample :
    (arucoProcessResult { objects := some [{ rotation := JField.val 10 }] } "img" "ts"
      none).messages = [] ∧
    (arucoProcessResult { objects := some [{ rotation := JField.val 10 }] } "img" "ts"
      none).doneError =
      some "TypeError: Cannot read properties of undefined (reading 'marker_id')" ∧
    ([{ rotation := JField.val 10 }] : List RawVisionObject).length = 1 :=
  ⟨rfl, rfl, rfl⟩

/-- C2 (amended): for a successful backend response to the ArUco-detect
node whose first object carries its properties mapping — and for every
successful response to the template-match node, which dereferences no
properties — exactly one outbound message is emitted per entry of the
objects array, in array order: the emitted list is literally the map of
the per-entry message builder over the array, so its length equals the
array's length and no reordering, deduplication or re-ranking can occur;
when the objects array is absent or empty, zero messages are emitted,
the completion callback receives no error, and the status is the
no-results status (yellow ring).  When the ArUco response's first object
lacks a properties mapping (absent or null), the reference-object
construction throws, so zero messages are emitted and the completion
callback receives the error. -/
theorem mv_C2_one_message_per_detection :
    (∀ (result : VisionApiResult) (imageId ts : String) (name : Option String),
      (result.objects = none ∨ result.objects = some []) →
      (arucoProcessResult result imageId ts name).messages = [] ∧
      (arucoProcessResult result imageId ts name).doneError = none ∧
      (arucoProcessResult result imageId ts name).status.fill = some "yellow" ∧
      (arucoProcessResult result imageId ts name).status.shape = some "ring") ∧
    (∀ (result : VisionApiResult) (imageId ts : String) (name : Option String)
      (first : RawVisionObject) (rest : List RawVisionObject) (pr : Properties),
      result.objects = some (first :: rest) →
      first.properties = JField.val pr →
      (arucoProcessResult result imageId ts name).messages =
        (first :: rest).map (fun obj => arucoOutMessage obj first pr imageId ts
          result.thumbnail_base64 result.processing_time_ms name) ∧
      (arucoProcessResult result imageId ts name).messages.length =
        (first :: rest).length ∧
      (arucoProcessResult result imageId ts name).doneError = none) ∧
    (∀ (result : VisionApiResult) (imageId ts : String) (name : Option String)
      (first : RawVisionObject) (rest : List RawVisionObject),
      result.objects = some (first :: rest) →
      (first.properties = JField.missing ∨ first.properties = JField.jnull) →
      (arucoProcessResult result imageId ts name).messages = [] ∧
      (arucoProcessResult result imageId ts name).doneError ≠ none) ∧
    (∀ (result : VisionApiResult) (imageId ts : String) (name : Option String),
      (result.objects = none ∨ result.objects = some []) →
      (templateProcessResult result imageId ts name).messages = [] ∧
      (templateProcessResult result imageId ts name).doneError = none ∧
      (templateProcessResult result imageId ts name).status.fill = some "yellow" ∧
      (templateProcessResult result imageId ts name).status.shape = some "ring") ∧
    (∀ (result : VisionApiResult) (imageId ts : String) (name : Option String)
      (first : RawVisionObject) (rest : List RawVisionObject),
      result.objects = some (first :: rest) →
      (templateProcessResult result imageId ts name).messages =
        (first :: rest).map (fun obj => templateOutMessage obj imageId ts
          result.thumbnail_base64 result.processing_time_ms name) ∧
      (templateProcessResult result imageId ts name).messages.length =
        (first :: rest).length ∧
      (templateProcessResult result imageId ts name).doneError = none) := by
  refine ⟨?_, ?_, ?_, ?_, ?_⟩
  · intro result imageId ts name h
    obtain ⟨objs, thumb, pt⟩ := result
    rcases h with h | h <;> simp only at h <;> subst h <;> exact ⟨rfl, rfl, rfl, rfl⟩
  · intro result imageId ts name first rest pr h hp
    obtain ⟨objs, thumb, pt⟩ := result
    simp only at h
    subst h
    simp only [arucoProcessResult, hp]
    refine ⟨?_, ?_, trivial⟩
    · exact arucoMessages_eq_map first pr rest imageId ts thumb pt name
    · rw [arucoMessages_eq_map first pr rest imageId ts thumb pt name]
      exact List.length_map _ _
  · intro result imageId ts name first rest h hp
    obtain ⟨objs, thumb, pt⟩ := result
    simp only at h
    subst h
    rcases hp with hp | hp <;> simp [arucoProcessResult, hp]
  · intro result imageId ts name h
    obtain ⟨objs, thumb, pt⟩ := result
    rcases h with h | h <;> simp only at h <;> subst h <;> exact ⟨rfl, rfl, rfl, rfl⟩
  · intro result imageId ts name first rest h
    obtain ⟨objs, thumb, pt⟩ := result
    simp only at h
    subst h
    refine ⟨?_, ?_, rfl⟩
    · exact templateMessages_eq_map imageId ts thumb pt name (first :: rest)
    · rw [show (templateProcessResult { objects := some (first :: rest), thumbnail_base64 := thumb, processing_time_ms := pt } imageId ts name).messages = (first :: rest).map (fun obj => templateOutMessage obj imageId ts thumb pt name) from templateMessages_eq_map imageId ts thumb pt name (first :: rest)]
      exact List.length_map _ _

/-- C2 witness: a response with two markers (the first carrying its
properties mapping) yields exactly two ArUco messages with no error, a
response whose single marker lacks properties yields zero messages with
an error, and a response with an empty objects array yields no
template-match message with no error. -/
theorem mv_C2_one_message_per_detection_witness :
    (arucoProcessResult { objects := some [{ object_id := some "m1", rotation := JField.val 10, properties := JField.val { marker_id := some "id1" } }, { object_id := some "m2", rotation := JField.val 20, properties := JField.val { marker_id := some "id2" } }], thumbnail_base64 := some "thumb", processing_time_ms := some 12 } "img" "ts" none).messages.length = 2 ∧
    (arucoProcessResult { objects := some [{ rotation := JField.val 10 }] } "img" "ts"
      none).messages = [] ∧
    (templateProcessResult { objects := some [] } "img" "ts" none).messages = [] ∧
    (templateProcessResult { objects := some [] } "img" "ts" none).doneError = none :=
  ⟨((mv_C2_one_message_per_detection.2.1
      { objects := some [{ object_id := some "m1", rotation := JField.val 10, properties := JField.val { marker_id := some "id1" } }, { object_id := some "m2", rotation := JField.val 20, properties := JField.val { marker_id := some "id2" } }], thumbnail_base64 := some "thumb", processing_time_ms := some 12 }
      "img" "ts" none
      { object_id := some "m1", rotation := JField.val 10, properties := JField.val { marker_id := some "id1" } }
      [{ object_id := some "m2", rotation := JField.val 20, properties := JField.val { marker_id := some "id2" } }]
      { marker_id := some "id1" }
      rfl rfl).2.1),
    ((mv_C2_one_message_per_detection.2.2.1 { objects := some [{ rotation := JField.val 10 }] }
      "img" "ts" none { rotation := JField.val 10 } [] rfl (Or.inl rfl)).1),
    ((mv_C2_one_message_per_detection.2.2.2.1 { objects := some [] } "img" "ts" none
      (Or.inr rfl)).1),
    ((mv_C2_one_message_per_detection.2.2.2.1 { objects := some [] } "img" "ts" none
      (Or.inr rfl)).2.1)⟩

end MachineVision
